import Mathlib

/-!
Verification development for the s3-provider service (src/main.py).

The file shallowly embeds the program logic of main.py in Lean:

* the UTF-8 codec used at the byte boundary (Python str.encode("utf-8") /
  bytes.decode("utf-8"));
* SHA-256, the digest selected by hash_string's default algorithm;
* the object-store collaborator (head / get / put keyed by bucket and key),
  modelled as an explicit store plus injectable transport faults;
* the module-level configuration, the requires_secret_key decorator and the
  two Flask handlers get_request and post_request.

Machine integers are Nat with explicit reduction modulo 2 ^ 32 where the
SHA-256 compression function needs wrap-around; bytes are Nat values below
256 produced by the encoder.
-/

namespace S3Provider

/-! UTF-8 encoding and decoding, as performed by str.encode("utf-8") and
bytes.decode("utf-8") in main.py lines 61, 148 and 51. -/

/-- Byte sequence of the UTF-8 encoding of one scalar value. -/
def utf8EncodeChar (c : Char) : List Nat :=
  let n := c.toNat
  if n < 128 then [n]
  else if n < 2048 then [192 + n / 64, 128 + n % 64]
  else if n < 65536 then [224 + n / 4096, 128 + n / 64 % 64, 128 + n % 64]
  else [240 + n / 262144, 128 + n / 4096 % 64, 128 + n / 64 % 64, 128 + n % 64]

/-- UTF-8 encoding of a string, the model of s.encode("utf-8"). -/
def utf8Encode (s : String) : List Nat :=
  s.data.flatMap utf8EncodeChar

/-- Continuation of a two-byte UTF-8 sequence, rejecting stray bytes and
overlong encodings. -/
def utf8Cont2 (b0 : Nat) : List Nat → Option (Nat × List Nat)
  | b1 :: r =>
    if (128 ≤ b1 ∧ b1 < 192) ∧ 128 ≤ (b0 - 192) * 64 + (b1 - 128) then
      some ((b0 - 192) * 64 + (b1 - 128), r)
    else none
  | [] => none

/-- Continuation of a three-byte UTF-8 sequence, rejecting stray bytes,
overlong encodings and surrogate code points. -/
def utf8Cont3 (b0 : Nat) : List Nat → Option (Nat × List Nat)
  | b1 :: b2 :: r =>
    if (128 ≤ b1 ∧ b1 < 192) ∧ (128 ≤ b2 ∧ b2 < 192) ∧
       2048 ≤ (b0 - 224) * 4096 + (b1 - 128) * 64 + (b2 - 128) ∧
       ¬ (55296 ≤ (b0 - 224) * 4096 + (b1 - 128) * 64 + (b2 - 128) ∧
          (b0 - 224) * 4096 + (b1 - 128) * 64 + (b2 - 128) < 57344) then
      some ((b0 - 224) * 4096 + (b1 - 128) * 64 + (b2 - 128), r)
    else none
  | _ => none

/-- Continuation of a four-byte UTF-8 sequence, rejecting stray bytes,
overlong encodings and values beyond the Unicode range. -/
def utf8Cont4 (b0 : Nat) : List Nat → Option (Nat × List Nat)
  | b1 :: b2 :: b3 :: r =>
    if (128 ≤ b1 ∧ b1 < 192) ∧ (128 ≤ b2 ∧ b2 < 192) ∧ (128 ≤ b3 ∧ b3 < 192) ∧
       65536 ≤ (b0 - 240) * 262144 + (b1 - 128) * 4096 + (b2 - 128) * 64 + (b3 - 128) ∧
       (b0 - 240) * 262144 + (b1 - 128) * 4096 + (b2 - 128) * 64 + (b3 - 128) < 1114112 then
      some ((b0 - 240) * 262144 + (b1 - 128) * 4096 + (b2 - 128) * 64 + (b3 - 128), r)
    else none
  | _ => none

/-- Decode one UTF-8 scalar value from the front of a byte list, returning
the code point and the remaining bytes, or none on malformed input. -/
def utf8DecodeOne : List Nat → Option (Nat × List Nat)
  | [] => none
  | b0 :: rest =>
    if b0 < 128 then some (b0, rest)
    else if b0 < 192 then none
    else if b0 < 224 then utf8Cont2 b0 rest
    else if b0 < 240 then utf8Cont3 b0 rest
    else if b0 < 248 then utf8Cont4 b0 rest
    else none

/-- Fuel-indexed decoding loop; the fuel bounds the number of decoded
characters, one byte at least being consumed per character. -/
def utf8DecodeAux : Nat → List Nat → Option (List Char)
  | _, [] => some []
  | 0, _ :: _ => none
  | fuel + 1, b0 :: rest =>
    match utf8DecodeOne (b0 :: rest) with
    | none => none
    | some (n, r) => (utf8DecodeAux fuel r).map (fun cs => Char.ofNat n :: cs)

/-- UTF-8 decoding of a byte list, the model of b.decode("utf-8"); none
models a raised UnicodeDecodeError. -/
def utf8Decode (bytes : List Nat) : Option String :=
  (utf8DecodeAux bytes.length bytes).map String.mk

/-! SHA-256 over byte lists, the digest computed by
hashlib.new("sha256") in hash_string (main.py lines 58-63).  Words are
Nat values kept below 2 ^ 32 by explicit reduction. -/

/-- Right rotation of a 32-bit word, in pure arithmetic form. -/
def rotr32 (n x : Nat) : Nat :=
  (x / 2 ^ n + x % 2 ^ n * 2 ^ (32 - n)) % 4294967296

/-- Choice function of the SHA-256 compression; the complement of a word
below 2 ^ 32 is its difference from 4294967295. -/
def sha256Ch (x y z : Nat) : Nat := (x &&& y) ^^^ ((4294967295 - x) &&& z)

/-- Majority function of the SHA-256 compression. -/
def sha256Maj (x y z : Nat) : Nat := (x &&& y) ^^^ (x &&& z) ^^^ (y &&& z)

/-- Big sigma-0 of SHA-256. -/
def bigS0 (x : Nat) : Nat := rotr32 2 x ^^^ rotr32 13 x ^^^ rotr32 22 x

/-- Big sigma-1 of SHA-256. -/
def bigS1 (x : Nat) : Nat := rotr32 6 x ^^^ rotr32 11 x ^^^ rotr32 25 x

/-- Small sigma-0 of SHA-256. -/
def smallS0 (x : Nat) : Nat := rotr32 7 x ^^^ rotr32 18 x ^^^ x / 2 ^ 3

/-- Small sigma-1 of SHA-256. -/
def smallS1 (x : Nat) : Nat := rotr32 17 x ^^^ rotr32 19 x ^^^ x / 2 ^ 10

/-- Round constants of SHA-256. -/
def sha256K : List Nat :=
  [1116352408, 1899447441, 3049323471, 3921009573, 961987163,
   1508970993, 2453635748, 2870763221, 3624381080, 310598401,
   607225278, 1426881987, 1925078388, 2162078206, 2614888103,
   3248222580, 3835390401, 4022224774, 264347078, 604807628,
   770255983, 1249150122, 1555081692, 1996064986, 2554220882,
   2821834349, 2952996808, 3210313671, 3336571891, 3584528711,
   113926993, 338241895, 666307205, 773529912, 1294757372,
   1396182291, 1695183700, 1986661051, 2177026350, 2456956037,
   2730485921, 2820302411, 3259730800, 3345764771, 3516065817,
   3600352804, 4094571909, 275423344, 430227734, 506948616,
   659060556, 883997877, 958139571, 1322822218, 1537002063,
   1747873779, 1955562222, 2024104815, 2227730452, 2361852424,
   2428436474, 2756734187, 3204031479, 3329325298]

/-- Working state of the SHA-256 compression: eight 32-bit words. -/
structure Hash8 where
  a : Nat
  b : Nat
  c : Nat
  d : Nat
  e : Nat
  f : Nat
  g : Nat
  h : Nat

/-- Initial hash value of SHA-256. -/
def sha256H0 : Hash8 :=
  ⟨1779033703, 3144134277, 1013904242, 2773480762,
   1359893119, 2600822924, 528734635, 1541459225⟩

/-- Length of the message in bits, as eight big-endian bytes. -/
def lenBytes8 (n : Nat) : List Nat :=
  [n / 2 ^ 56 % 256, n / 2 ^ 48 % 256, n / 2 ^ 40 % 256, n / 2 ^ 32 % 256,
   n / 2 ^ 24 % 256, n / 2 ^ 16 % 256, n / 2 ^ 8 % 256, n % 256]

/-- SHA-256 padding: a 128 byte, zero bytes up to 56 modulo 64, then the
bit length. -/
def sha256Pad (msg : List Nat) : List Nat :=
  msg ++ 128 :: List.replicate ((119 - msg.length % 64) % 64) 0 ++ lenBytes8 (8 * msg.length)

/-- Group bytes into big-endian 32-bit words. -/
def toWords : List Nat → List Nat
  | a :: b :: c :: d :: rest => (a * 16777216 + b * 65536 + c * 256 + d) :: toWords rest
  | _ => []

/-- Extend the 16 block words by the given number of schedule words. -/
def extendMsg : Nat → List Nat → List Nat
  | 0, ws => ws
  | n + 1, ws =>
    let t := (smallS1 (ws.getD (ws.length - 2) 0) + ws.getD (ws.length - 7) 0
              + smallS0 (ws.getD (ws.length - 15) 0) + ws.getD (ws.length - 16) 0) % 4294967296
    extendMsg n (ws ++ [t])

/-- One round of the SHA-256 compression function. -/
def roundStep (k w : Nat) (s : Hash8) : Hash8 :=
  let t1 := (s.h + bigS1 s.e + sha256Ch s.e s.f s.g + k + w) % 4294967296
  let t2 := (bigS0 s.a + sha256Maj s.a s.b s.c) % 4294967296
  ⟨(t1 + t2) % 4294967296, s.a, s.b, s.c, (s.d + t1) % 4294967296, s.e, s.f, s.g⟩

/-- Run the 64 rounds, consuming the round constants and schedule words. -/
def roundsLoop : List Nat → List Nat → Hash8 → Hash8
  | k :: ks, w :: ws, s => roundsLoop ks ws (roundStep k w s)
  | _, _, s => s

/-- Compress one 64-byte block into the running hash value. -/
def processBlock (s : Hash8) (block : List Nat) : Hash8 :=
  let ws := extendMsg 48 (toWords block)
  let r := roundsLoop sha256K ws s
  ⟨(s.a + r.a) % 4294967296, (s.b + r.b) % 4294967296, (s.c + r.c) % 4294967296,
   (s.d + r.d) % 4294967296, (s.e + r.e) % 4294967296, (s.f + r.f) % 4294967296,
   (s.g + r.g) % 4294967296, (s.h + r.h) % 4294967296⟩

/-- Fold the compression over the 64-byte blocks of the padded message;
the fuel is the byte count, ample since each step consumes 64 bytes. -/
def blocksLoop : Nat → Hash8 → List Nat → Hash8
  | _, s, [] => s
  | 0, s, _ => s
  | n + 1, s, bytes => blocksLoop n (processBlock s (bytes.take 64)) (bytes.drop 64)

/-- The eight final hash words of SHA-256 on a byte list. -/
def sha256Words (msg : List Nat) : Hash8 :=
  let padded := sha256Pad msg
  blocksLoop padded.length sha256H0 padded

/-- Lowercase hexadecimal digit for a value below 16. -/
def hexDigit (n : Nat) : Char :=
  if n < 10 then Char.ofNat (48 + n) else Char.ofNat (87 + n)

/-- Eight lowercase hex digits of one 32-bit word, most significant first. -/
def wordHex (w : Nat) : List Char :=
  [hexDigit (w / 2 ^ 28 % 16), hexDigit (w / 2 ^ 24 % 16), hexDigit (w / 2 ^ 20 % 16),
   hexDigit (w / 2 ^ 16 % 16), hexDigit (w / 2 ^ 12 % 16), hexDigit (w / 2 ^ 8 % 16),
   hexDigit (w / 2 ^ 4 % 16), hexDigit (w % 16)]

/-- Lowercase hexadecimal SHA-256 digest of a byte list, the model of
hashlib hexdigest. -/
def sha256Hex (msg : List Nat) : String :=
  let s := sha256Words msg
  String.mk (wordHex s.a ++ wordHex s.b ++ wordHex s.c ++ wordHex s.d ++
             wordHex s.e ++ wordHex s.f ++ wordHex s.g ++ wordHex s.h)

/-- Model of hash_string (main.py lines 58-63): digest of the UTF-8 bytes
of the argument, rendered as lowercase hexadecimal.  The source exposes an
algorithm parameter defaulting to "sha256"; no caller overrides it, and
only the sha256 instance is modelled. -/
def hash_string (data : String) : String :=
  sha256Hex (utf8Encode data)

/-! Service model: object store collaborator, configuration, decorator and
the two Flask handlers of main.py. -/

/-- JSON values, as produced by jsonify in the handlers. -/
inductive Json where
  | str (s : String)
  | null
  | obj (fields : List (String × Json))

/-- Error raised by the store client, a ClientError carrying the value of
e.response.get("Error", ...).get("Code") and a message. -/
structure S3Error where
  code : Option String
  msg : String

/-- Python exceptions that the handler code can observe. -/
inductive PyErr where
  | clientError (code : Option String) (msg : String)
  | runtimeError (msg : String)
  | unicodeDecodeError

/-- Rendering str(e) of an exception; the exact botocore text is outside
this repository, only its presence in the 500 body matters. -/
def PyErr.message : PyErr → String
  | .clientError _ m => m
  | .runtimeError m => m
  | .unicodeDecodeError => "utf-8 codec can not decode"

/-- Result of one handler invocation: a normal Flask response, an abort
produced by flask.abort, or an exception escaping the handler. -/
inductive HResult where
  | response (status : Nat) (body : Json)
  | httpAbort (status : Nat) (description : String)
  | uncaught (e : PyErr)

/-- One network call issued to the store client, recorded in order. -/
inductive S3Op where
  | head (bucket key : String)
  | get (bucket key : String)
  | put (bucket key : String) (body : List Nat) (contentType : String)

/-- State of the external object store: objects as
(bucket, key, body bytes, content type), most recent write first. -/
abbrev Store := List (String × String × List Nat × String)

/-- Lookup of an object by bucket and key; the most recent write wins, so
consing a new entry models the overwrite semantics of put_object. -/
def storeLookup : Store → String → String → Option (List Nat × String)
  | [], _, _ => none
  | (b', k', body, ct) :: rest, b, k =>
    if b' = b ∧ k' = k then some (body, ct) else storeLookup rest b k

/-- The store client as seen by one request: current store contents plus
at most one injectable transport fault per operation kind, modelling the
OtherError outcomes of the external collaborator. -/
structure Backend where
  store : Store
  headFault : Option S3Error
  getFault : Option S3Error
  putFault : Option S3Error

/-- Process configuration read at import time (main.py lines 31-33). -/
structure Env where
  secret : Option String
  bucket : Option String

/-- Model of module initialisation: os.getenv reads SECRET_KEY and
BUCKET_NAME; neither value is validated and nothing can fail here. -/
def loadConfig (getenv : String → Option String) : Env :=
  ⟨getenv "SECRET_KEY", getenv "BUCKET_NAME"⟩

/-- Truthiness of an optional string in Python: None and the empty string
are falsy. -/
def falsy : Option String → Bool
  | none => true
  | some s => s == ""

/-- Model of s3.head_object: a 404-coded ClientError when the key is
absent, an injected fault standing for any other transport error. -/
def s3_head_object (be : Backend) (bucket key : String) : Except S3Error Unit :=
  match be.headFault with
  | some err => .error err
  | none =>
    match storeLookup be.store bucket key with
    | some _ => .ok ()
    | none => .error ⟨some "404", "Not Found"⟩

/-- Model of s3.get_object returning the body bytes. -/
def s3_get_object (be : Backend) (bucket key : String) : Except S3Error (List Nat) :=
  match be.getFault with
  | some err => .error err
  | none =>
    match storeLookup be.store bucket key with
    | some v => .ok v.1
    | none => .error ⟨some "404", "Not Found"⟩

/-- Model of s3.put_object: prepend the new object to the store. -/
def s3_put_object (be : Backend) (bucket key : String) (body : List Nat)
    (contentType : String) : Except S3Error Store :=
  match be.putFault with
  | some err => .error err
  | none => .ok ((bucket, key, body, contentType) :: be.store)

/-- Model of object_exists (main.py lines 36-43): head the object, treat a
404-coded ClientError as absence, re-raise anything else. -/
def object_exists (be : Backend) (bucket key : String) : Except PyErr Bool :=
  match s3_head_object be bucket key with
  | .ok _ => .ok true
  | .error e => if e.code = some "404" then .ok false else .error (.clientError e.code e.msg)

/-- Model of get_object_content (main.py lines 46-55): check the bucket
configuration, fetch the object, decode UTF-8; a 404-coded ClientError
yields None, any other ClientError re-raises; the RuntimeError and a
UnicodeDecodeError are not ClientError and propagate. -/
def get_object_content (env : Env) (be : Backend) (key : String) :
    Except PyErr (Option String) :=
  if falsy env.bucket then .error (.runtimeError "BUCKET_NAME is not set")
  else
    match s3_get_object be (env.bucket.getD "") key with
    | .ok body =>
      match utf8Decode body with
      | some s => .ok (some s)
      | none => .error .unicodeDecodeError
    | .error e => if e.code = some "404" then .ok none else .error (.clientError e.code e.msg)

/-- Observable outcome of one handler invocation: the result, the store
contents afterwards, and the trace of store-client calls in order. -/
structure Outcome where
  result : HResult
  store : Store
  ops : List S3Op

/-- Body of the 403 answer produced by the decorator. -/
def authFailureBody : Json := .obj [("error", .str "Invalid secret key")]

/-- Model of the requires_secret_key decorator (main.py lines 66-76): read
the key header, compare with the configured secret, short-circuit to a 403
JSON answer on mismatch, otherwise run the wrapped handler. -/
def requires_secret_key (secret hdr : Option String) (st : Store)
    (f : Unit → Outcome) : Outcome :=
  if hdr = secret then f () else ⟨.response 403 authFailureBody, st, []⟩

/-- JSON value of an Optional string, None becoming null. -/
def jsonOfOption : Option String → Json
  | some s => .str s
  | none => .null

/-- Body of get_request (main.py lines 87-105), after the decorator: abort
400 on an empty file_id, raise on a falsy bucket name, abort 404 when the
existence probe reports absence, otherwise fetch and return the content.
No try/except surrounds this code, so store-client errors escape. -/
def get_request_body (env : Env) (be : Backend) (file_id : String) : Outcome :=
  if file_id = "" then
    ⟨.httpAbort 400 "Параметр file_id обязателен.", be.store, []⟩
  else if falsy env.bucket then
    ⟨.uncaught (.runtimeError "BUCKET_NAME is not set"), be.store, []⟩
  else
    let b := env.bucket.getD ""
    match object_exists be b file_id with
    | .error e => ⟨.uncaught e, be.store, [.head b file_id]⟩
    | .ok false => ⟨.httpAbort 404 "Объект не найден.", be.store, [.head b file_id]⟩
    | .ok true =>
      match get_object_content env be file_id with
      | .error e => ⟨.uncaught e, be.store, [.head b file_id, .get b file_id]⟩
      | .ok c =>
        ⟨.response 200 (.obj [("content", jsonOfOption c)]), be.store,
         [.head b file_id, .get b file_id]⟩

/-- Model of the full GET /get-object/file_id route. -/
def get_request (env : Env) (be : Backend) (hdr : Option String)
    (file_id : String) : Outcome :=
  requires_secret_key env.secret hdr be.store (fun _ => get_request_body env be file_id)

/-- The two fields read from the POST request JSON. -/
structure PostBody where
  data_base64 : Option String
  ext : Option String

/-- Body of post_request (main.py lines 110-159), after the decorator; the
whole body sits in a try/except Exception block, so every exception raised
inside, including the RuntimeError for a falsy bucket name and any
ClientError from the store client, becomes a 500 JSON answer. -/
def post_request_body (env : Env) (be : Backend) (reqJson : Option PostBody) : Outcome :=
  match reqJson with
  | none => ⟨.response 400 (.obj [("error", .str "No JSON data provided")]), be.store, []⟩
  | some body =>
    if falsy body.data_base64 || falsy body.ext then
      ⟨.response 400 (.obj [("error", .str "Missing required fields")]), be.store, []⟩
    else
      let b64 := body.data_base64.getD ""
      let ext := body.ext.getD ""
      let key := hash_string b64 ++ "." ++ ext
      if falsy env.bucket then
        ⟨.response 500 (.obj [("error", .str "BUCKET_NAME is not set")]), be.store, []⟩
      else
        let b := env.bucket.getD ""
        match object_exists be b key with
        | .error e =>
          ⟨.response 500 (.obj [("error", .str e.message)]), be.store, [.head b key]⟩
        | .ok true =>
          ⟨.response 200 (.obj [("status", .str "exists"), ("data", .str key)]),
           be.store, [.head b key]⟩
        | .ok false =>
          match s3_put_object be b key (utf8Encode b64) "text/plain" with
          | .error e2 =>
            ⟨.response 500 (.obj [("error", .str e2.msg)]), be.store,
             [.head b key, .put b key (utf8Encode b64) "text/plain"]⟩
          | .ok st' =>
            ⟨.response 200 (.obj [("status", .str "created"), ("data", .str key)]),
             st', [.head b key, .put b key (utf8Encode b64) "text/plain"]⟩

/-- Model of the full POST /post-object route. -/
def post_request (env : Env) (be : Backend) (hdr : Option String)
    (reqJson : Option PostBody) : Outcome :=
  requires_secret_key env.secret hdr be.store (fun _ => post_request_body env be reqJson)

/-- The sixteen characters of the lowercase hexadecimal alphabet. -/
def hexChars : List Char := "0123456789abcdef".data

/-! Helper lemmas: UTF-8 round trip. -/

theorem utf8EncodeChar_ne_nil (c : Char) : utf8EncodeChar c ≠ [] := by
  rcases Nat.lt_or_ge c.toNat 128 with h1 | h1
  · simp [utf8EncodeChar, h1]
  · rcases Nat.lt_or_ge c.toNat 2048 with h2 | h2
    · simp [utf8EncodeChar, h2, Nat.not_lt.mpr h1]
    · rcases Nat.lt_or_ge c.toNat 65536 with h3 | h3
      · simp [utf8EncodeChar, h3, Nat.not_lt.mpr h1, Nat.not_lt.mpr h2]
      · simp [utf8EncodeChar, Nat.not_lt.mpr h1, Nat.not_lt.mpr h2, Nat.not_lt.mpr h3]

theorem char_toNat_valid (c : Char) :
    c.toNat < 55296 ∨ (57343 < c.toNat ∧ c.toNat < 1114112) := c.valid

theorem utf8DecodeOne_encodeChar (c : Char) (rest : List Nat) :
    utf8DecodeOne (utf8EncodeChar c ++ rest) = some (c.toNat, rest) := by
  have hv := char_toNat_valid c
  rcases Nat.lt_or_ge c.toNat 128 with h1 | h1
  · have e1 : utf8EncodeChar c = [c.toNat] := by
      unfold utf8EncodeChar; rw [if_pos h1]
    rw [e1]
    simp only [List.cons_append, List.nil_append, utf8DecodeOne]
    rw [if_pos h1]
  · rcases Nat.lt_or_ge c.toNat 2048 with h2 | h2
    · have e1 : utf8EncodeChar c = [192 + c.toNat / 64, 128 + c.toNat % 64] := by
        unfold utf8EncodeChar; rw [if_neg (by omega), if_pos h2]
      rw [e1]
      simp only [List.cons_append, List.nil_append, utf8DecodeOne]
      rw [if_neg (by omega), if_neg (by omega), if_pos (by omega)]
      simp only [utf8Cont2]
      rw [if_pos (by omega)]
      have he : (192 + c.toNat / 64 - 192) * 64 + (128 + c.toNat % 64 - 128) = c.toNat := by
        omega
      rw [he]
    · rcases Nat.lt_or_ge c.toNat 65536 with h3 | h3
      · have e1 : utf8EncodeChar c =
            [224 + c.toNat / 4096, 128 + c.toNat / 64 % 64, 128 + c.toNat % 64] := by
          unfold utf8EncodeChar; rw [if_neg (by omega), if_neg (by omega), if_pos h3]
        rw [e1]
        simp only [List.cons_append, List.nil_append, utf8DecodeOne]
        rw [if_neg (by omega), if_neg (by omega), if_neg (by omega), if_pos (by omega)]
        simp only [utf8Cont3]
        rw [if_pos (by omega)]
        have he : (224 + c.toNat / 4096 - 224) * 4096 + (128 + c.toNat / 64 % 64 - 128) * 64
            + (128 + c.toNat % 64 - 128) = c.toNat := by omega
        rw [he]
      · have h4 : c.toNat < 1114112 := by omega
        have e1 : utf8EncodeChar c =
            [240 + c.toNat / 262144, 128 + c.toNat / 4096 % 64,
             128 + c.toNat / 64 % 64, 128 + c.toNat % 64] := by
          unfold utf8EncodeChar
          rw [if_neg (by omega), if_neg (by omega), if_neg (by omega)]
        rw [e1]
        simp only [List.cons_append, List.nil_append, utf8DecodeOne]
        rw [if_neg (by omega), if_neg (by omega), if_neg (by omega), if_neg (by omega),
            if_pos (by omega)]
        simp only [utf8Cont4]
        rw [if_pos (by omega)]
        have he : (240 + c.toNat / 262144 - 240) * 262144
            + (128 + c.toNat / 4096 % 64 - 128) * 4096
            + (128 + c.toNat / 64 % 64 - 128) * 64 + (128 + c.toNat % 64 - 128) = c.toNat := by
          omega
        rw [he]

theorem length_le_flatMap_encode (cs : List Char) :
    cs.length ≤ (cs.flatMap utf8EncodeChar).length := by
  induction cs with
  | nil => simp
  | cons c cs ih =>
    simp only [List.flatMap_cons, List.length_append, List.length_cons]
    have h1 : 1 ≤ (utf8EncodeChar c).length := by
      cases h : utf8EncodeChar c with
      | nil => exact absurd h (utf8EncodeChar_ne_nil c)
      | cons x xs => simp
    omega

theorem utf8DecodeAux_encode (cs : List Char) :
    ∀ fuel, cs.length ≤ fuel →
      utf8DecodeAux fuel (cs.flatMap utf8EncodeChar) = some cs := by
  induction cs with
  | nil => intro fuel _; cases fuel <;> simp [utf8DecodeAux]
  | cons c cs ih =>
    intro fuel hf
    cases fuel with
    | zero => simp at hf
    | succ f =>
      obtain ⟨b0, bs, hb⟩ : ∃ b0 bs, utf8EncodeChar c = b0 :: bs := by
        cases h : utf8EncodeChar c with
        | nil => exact absurd h (utf8EncodeChar_ne_nil c)
        | cons x xs => exact ⟨x, xs, rfl⟩
      have hdec : utf8DecodeOne (b0 :: (bs ++ cs.flatMap utf8EncodeChar))
          = some (c.toNat, cs.flatMap utf8EncodeChar) := by
        rw [← List.cons_append, ← hb]
        exact utf8DecodeOne_encodeChar c _
      simp only [List.flatMap_cons, hb, List.cons_append, utf8DecodeAux, hdec]
      rw [ih f (by simpa using hf)]
      simp [Char.ofNat_toNat]

theorem utf8_roundtrip (s : String) : utf8Decode (utf8Encode s) = some s := by
  unfold utf8Decode utf8Encode
  rw [utf8DecodeAux_encode s.data _ (length_le_flatMap_encode s.data)]
  rfl

/-! Helper lemmas: shape of the hexadecimal digest. -/

theorem string_mk_length (l : List Char) : (String.mk l).length = l.length := rfl

theorem string_mk_data (l : List Char) : (String.mk l).data = l := rfl

theorem wordHex_length (w : Nat) : (wordHex w).length = 8 := rfl

theorem sha256Hex_length (msg : List Nat) : (sha256Hex msg).length = 64 := by
  unfold sha256Hex
  simp only [string_mk_length, List.length_append, wordHex_length]

theorem hash_string_length (p : String) : (hash_string p).length = 64 :=
  sha256Hex_length (utf8Encode p)

theorem postKey_ne_empty (p e : String) : hash_string p ++ "." ++ e ≠ "" := by
  intro h
  have hl := congrArg String.length h
  rw [String.length_append, String.length_append, hash_string_length] at hl
  have h1 : String.length "." = 1 := rfl
  have h0 : String.length "" = 0 := rfl
  rw [h1, h0] at hl
  omega

theorem hexDigit_mem_hexChars : ∀ n, n < 16 → hexDigit n ∈ hexChars := by decide

theorem wordHex_subset_hexChars (w : Nat) : ∀ ch ∈ wordHex w, ch ∈ hexChars := by
  intro ch hch
  simp only [wordHex, List.mem_cons, List.not_mem_nil, or_false] at hch
  rcases hch with h | h | h | h | h | h | h | h <;> subst h <;>
    exact hexDigit_mem_hexChars _ (Nat.mod_lt _ (by norm_num))

theorem sha256Hex_chars (msg : List Nat) :
    ∀ ch ∈ (sha256Hex msg).data, ch ∈ hexChars := by
  intro ch hch
  simp only [sha256Hex, string_mk_data, List.mem_append] at hch
  rcases hch with ((((((h | h) | h) | h) | h) | h) | h) | h <;>
    exact wordHex_subset_hexChars _ ch h

/-! Helper lemmas: reductions of the two handlers under specific store and
configuration conditions. -/

theorem falsy_false_of_ne (s : String) (h : s ≠ "") : falsy (some s) = false := by
  simp [falsy, h]

theorem post_request_created (env : Env) (be : Backend) (hdr : Option String)
    (p e b : String)
    (hAuth : hdr = env.secret) (hBucket : env.bucket = some b) (hB : b ≠ "")
    (hp : p ≠ "") (he : e ≠ "")
    (hHF : be.headFault = none) (hPF : be.putFault = none)
    (hsl : storeLookup be.store b (hash_string p ++ "." ++ e) = none) :
    post_request env be hdr (some ⟨some p, some e⟩) =
      ⟨.response 200 (.obj [("status", .str "created"),
                            ("data", .str (hash_string p ++ "." ++ e))]),
       (b, hash_string p ++ "." ++ e, utf8Encode p, "text/plain") :: be.store,
       [.head b (hash_string p ++ "." ++ e),
        .put b (hash_string p ++ "." ++ e) (utf8Encode p) "text/plain"]⟩ := by
  simp [post_request, requires_secret_key, hAuth, post_request_body,
        falsy_false_of_ne p hp, falsy_false_of_ne e he, falsy_false_of_ne b hB,
        hBucket, object_exists, s3_head_object, s3_put_object, hHF, hPF, hsl, falsy,
        hp, he, hB]

theorem post_request_already_exists (env : Env) (be : Backend) (hdr : Option String)
    (p e b : String) (v : List Nat × String)
    (hAuth : hdr = env.secret) (hBucket : env.bucket = some b) (hB : b ≠ "")
    (hp : p ≠ "") (he : e ≠ "")
    (hHF : be.headFault = none)
    (hsl : storeLookup be.store b (hash_string p ++ "." ++ e) = some v) :
    post_request env be hdr (some ⟨some p, some e⟩) =
      ⟨.response 200 (.obj [("status", .str "exists"),
                            ("data", .str (hash_string p ++ "." ++ e))]),
       be.store, [.head b (hash_string p ++ "." ++ e)]⟩ := by
  simp [post_request, requires_secret_key, hAuth, post_request_body,
        falsy_false_of_ne p hp, falsy_false_of_ne e he, falsy_false_of_ne b hB,
        hBucket, object_exists, s3_head_object, hHF, hsl, falsy, hp, he, hB]

theorem get_request_found (env : Env) (be : Backend) (hdr : Option String)
    (fid b s : String) (bytes : List Nat) (ct : String)
    (hAuth : hdr = env.secret) (hBucket : env.bucket = some b) (hB : b ≠ "")
    (hfid : fid ≠ "")
    (hHF : be.headFault = none) (hGF : be.getFault = none)
    (hsl : storeLookup be.store b fid = some (bytes, ct))
    (hdec : utf8Decode bytes = some s) :
    get_request env be hdr fid =
      ⟨.response 200 (.obj [("content", .str s)]), be.store,
       [.head b fid, .get b fid]⟩ := by
  simp [get_request, requires_secret_key, hAuth, get_request_body,
        falsy_false_of_ne b hB, hBucket, hfid, object_exists, s3_head_object,
        get_object_content, s3_get_object, hHF, hGF, hsl, hdec, falsy, jsonOfOption, hB]

theorem get_request_absent (env : Env) (be : Backend) (hdr : Option String)
    (fid b : String)
    (hAuth : hdr = env.secret) (hBucket : env.bucket = some b) (hB : b ≠ "")
    (hfid : fid ≠ "")
    (hHF : be.headFault = none)
    (hsl : storeLookup be.store b fid = none) :
    get_request env be hdr fid =
      ⟨.httpAbort 404 "Объект не найден.", be.store, [.head b fid]⟩ := by
  simp [get_request, requires_secret_key, hAuth, get_request_body,
        falsy_false_of_ne b hB, hBucket, hfid, object_exists, s3_head_object,
        hHF, hsl, falsy, hB]

/-! Sanity anchors: the embedded digest agrees with the published SHA-256
test vector for "abc" and with the digest of the spec scenario payload. -/

theorem sha256Hex_test_vector :
    sha256Hex (utf8Encode "abc") =
      "ba7816bf8f01cfea414140de5dae2223b00361a396177a9cb410ff61f20015ad" := rfl

theorem hash_string_spec_scenario :
    hash_string "aGVsbG8=" =
      "333d6b3a3c1f5db6c9bdda5939b136986d170f4649172a68368d54ecb44c2ff2" := rfl

/-! Claim theorems. -/

/-- C1: the object key produced by the POST path is the lowercase
hexadecimal SHA-256 digest of the UTF-8 bytes of the payload, followed by
a literal dot and the extension; the digest part is a function of the
payload alone, so the key is deterministic in (payload, extension) and the
extension never affects the digest part.  The response's data field
carries exactly this key in both the created and the exists branch. -/
theorem post_key_is_content_address (env : Env) (be : Backend) (hdr : Option String)
    (p e b : String)
    (hAuth : hdr = env.secret) (hBucket : env.bucket = some b) (hB : b ≠ "")
    (hp : p ≠ "") (he : e ≠ "")
    (hHF : be.headFault = none) (hPF : be.putFault = none) :
    hash_string p = sha256Hex (utf8Encode p) ∧
    (post_request env be hdr (some ⟨some p, some e⟩)).result =
      .response 200 (.obj
        [("status", .str (if (storeLookup be.store b (hash_string p ++ "." ++ e)).isSome
                          then "exists" else "created")),
         ("data", .str (hash_string p ++ "." ++ e))]) ∧
    (∀ ch ∈ (hash_string p).data, ch ∈ hexChars) := by
  refine ⟨rfl, ?_, sha256Hex_chars _⟩
  cases hsl : storeLookup be.store b (hash_string p ++ "." ++ e) with
  | none =>
    rw [post_request_created env be hdr p e b hAuth hBucket hB hp he hHF hPF hsl]
    rfl
  | some v =>
    rw [post_request_already_exists env be hdr p e b v hAuth hBucket hB hp he hHF hsl]
    rfl

/-- Witness for C1 at a concrete configuration, payload and extension. -/
theorem post_key_is_content_address_witness :
    ((some "s" : Option String) = (Env.mk (some "s") (some "b")).secret) ∧
    ((Env.mk (some "s") (some "b")).bucket = some "b") ∧
    ("b" : String) ≠ "" ∧ ("aGVsbG8=" : String) ≠ "" ∧ ("txt" : String) ≠ "" ∧
    ((Backend.mk [] none none none).headFault = none) ∧
    ((Backend.mk [] none none none).putFault = none) ∧
    (hash_string "aGVsbG8=" = sha256Hex (utf8Encode "aGVsbG8=") ∧
     (post_request (Env.mk (some "s") (some "b")) (Backend.mk [] none none none)
        (some "s") (some ⟨some "aGVsbG8=", some "txt"⟩)).result =
       .response 200 (.obj
         [("status", .str (if (storeLookup [] "b" (hash_string "aGVsbG8=" ++ "." ++ "txt")).isSome
                           then "exists" else "created")),
          ("data", .str (hash_string "aGVsbG8=" ++ "." ++ "txt"))]) ∧
     (∀ ch ∈ (hash_string "aGVsbG8=").data, ch ∈ hexChars)) :=
  ⟨rfl, rfl, by decide, by decide, by decide, rfl, rfl,
   post_key_is_content_address (Env.mk (some "s") (some "b"))
     (Backend.mk [] none none none) (some "s") "aGVsbG8=" "txt" "b"
     rfl rfl (by decide) (by decide) (by decide) rfl rfl⟩

/-- C2: the write path first issues a metadata-only existence probe for
the derived key; when the probe reports absent it writes the payload under
the key and answers status created, and when the probe reports present it
issues no write at all and answers status exists, the key being returned
alongside the status in both cases. -/
theorem post_existence_gated_write (env : Env) (be : Backend) (hdr : Option String)
    (p e b : String)
    (hAuth : hdr = env.secret) (hBucket : env.bucket = some b) (hB : b ≠ "")
    (hp : p ≠ "") (he : e ≠ "")
    (hHF : be.headFault = none) (hPF : be.putFault = none) :
    (post_request env be hdr (some ⟨some p, some e⟩)).ops.head? =
      some (.head b (hash_string p ++ "." ++ e)) ∧
    (storeLookup be.store b (hash_string p ++ "." ++ e) = none →
      post_request env be hdr (some ⟨some p, some e⟩) =
        ⟨.response 200 (.obj [("status", .str "created"),
                              ("data", .str (hash_string p ++ "." ++ e))]),
         (b, hash_string p ++ "." ++ e, utf8Encode p, "text/plain") :: be.store,
         [.head b (hash_string p ++ "." ++ e),
          .put b (hash_string p ++ "." ++ e) (utf8Encode p) "text/plain"]⟩) ∧
    (∀ v, storeLookup be.store b (hash_string p ++ "." ++ e) = some v →
      post_request env be hdr (some ⟨some p, some e⟩) =
        ⟨.response 200 (.obj [("status", .str "exists"),
                              ("data", .str (hash_string p ++ "." ++ e))]),
         be.store, [.head b (hash_string p ++ "." ++ e)]⟩) := by
  refine ⟨?_, ?_, ?_⟩
  · cases hsl : storeLookup be.store b (hash_string p ++ "." ++ e) with
    | none =>
      rw [post_request_created env be hdr p e b hAuth hBucket hB hp he hHF hPF hsl]
      rfl
    | some v =>
      rw [post_request_already_exists env be hdr p e b v hAuth hBucket hB hp he hHF hsl]
      rfl
  · intro hsl
    exact post_request_created env be hdr p e b hAuth hBucket hB hp he hHF hPF hsl
  · intro v hsl
    exact post_request_already_exists env be hdr p e b v hAuth hBucket hB hp he hHF hsl

/-- Witness for C2 at a concrete configuration, payload and extension. -/
theorem post_existence_gated_write_witness :
    ((some "s" : Option String) = (Env.mk (some "s") (some "b")).secret) ∧
    ((Env.mk (some "s") (some "b")).bucket = some "b") ∧
    ("b" : String) ≠ "" ∧ ("pay" : String) ≠ "" ∧ ("txt" : String) ≠ "" ∧
    ((Backend.mk [] none none none).headFault = none) ∧
    ((Backend.mk [] none none none).putFault = none) ∧
    ((post_request (Env.mk (some "s") (some "b")) (Backend.mk [] none none none)
        (some "s") (some ⟨some "pay", some "txt"⟩)).ops.head? =
      some (.head "b" (hash_string "pay" ++ "." ++ "txt")) ∧
     (storeLookup [] "b" (hash_string "pay" ++ "." ++ "txt") = none →
      post_request (Env.mk (some "s") (some "b")) (Backend.mk [] none none none)
          (some "s") (some ⟨some "pay", some "txt"⟩) =
        ⟨.response 200 (.obj [("status", .str "created"),
                              ("data", .str (hash_string "pay" ++ "." ++ "txt"))]),
         [("b", hash_string "pay" ++ "." ++ "txt", utf8Encode "pay", "text/plain")],
         [.head "b" (hash_string "pay" ++ "." ++ "txt"),
          .put "b" (hash_string "pay" ++ "." ++ "txt") (utf8Encode "pay") "text/plain"]⟩) ∧
     (∀ v, storeLookup [] "b" (hash_string "pay" ++ "." ++ "txt") = some v →
      post_request (Env.mk (some "s") (some "b")) (Backend.mk [] none none none)
          (some "s") (some ⟨some "pay", some "txt"⟩) =
        ⟨.response 200 (.obj [("status", .str "exists"),
                              ("data", .str (hash_string "pay" ++ "." ++ "txt"))]),
         [], [.head "b" (hash_string "pay" ++ "." ++ "txt")]⟩)) :=
  ⟨rfl, rfl, by decide, by decide, by decide, rfl, rfl,
   post_existence_gated_write (Env.mk (some "s") (some "b"))
     (Backend.mk [] none none none) (some "s") "pay" "txt" "b"
     rfl rfl (by decide) (by decide) (by decide) rfl rfl⟩

theorem storeLookup_cons_self (b k : String) (body : List Nat) (ct : String)
    (st : Store) : storeLookup ((b, k, body, ct) :: st) b k = some (body, ct) := by
  simp [storeLookup]

/-- C3: round trip.  After a POST answered with status created for key k,
a GET of k returns the original payload: the stored bytes are the UTF-8
encoding of the payload string and the fetch decodes them back. -/
theorem post_then_get_roundtrip (env : Env) (be : Backend) (hdr : Option String)
    (p e b : String)
    (hAuth : hdr = env.secret) (hBucket : env.bucket = some b) (hB : b ≠ "")
    (hp : p ≠ "") (he : e ≠ "")
    (hHF : be.headFault = none) (hPF : be.putFault = none)
    (hsl : storeLookup be.store b (hash_string p ++ "." ++ e) = none) :
    post_request env be hdr (some ⟨some p, some e⟩) =
      ⟨.response 200 (.obj [("status", .str "created"),
                            ("data", .str (hash_string p ++ "." ++ e))]),
       (b, hash_string p ++ "." ++ e, utf8Encode p, "text/plain") :: be.store,
       [.head b (hash_string p ++ "." ++ e),
        .put b (hash_string p ++ "." ++ e) (utf8Encode p) "text/plain"]⟩ ∧
    get_request env
        ⟨(b, hash_string p ++ "." ++ e, utf8Encode p, "text/plain") :: be.store,
         none, none, none⟩ hdr (hash_string p ++ "." ++ e) =
      ⟨.response 200 (.obj [("content", .str p)]),
       (b, hash_string p ++ "." ++ e, utf8Encode p, "text/plain") :: be.store,
       [.head b (hash_string p ++ "." ++ e), .get b (hash_string p ++ "." ++ e)]⟩ := by
  constructor
  · exact post_request_created env be hdr p e b hAuth hBucket hB hp he hHF hPF hsl
  · exact get_request_found env
      ⟨(b, hash_string p ++ "." ++ e, utf8Encode p, "text/plain") :: be.store,
       none, none, none⟩ hdr (hash_string p ++ "." ++ e) b p
      (utf8Encode p) "text/plain" hAuth hBucket hB (postKey_ne_empty p e) rfl rfl
      (storeLookup_cons_self b (hash_string p ++ "." ++ e) (utf8Encode p) "text/plain" be.store)
      (utf8_roundtrip p)

/-- Witness for C3 at a concrete configuration, payload and extension. -/
theorem post_then_get_roundtrip_witness :
    ((some "s" : Option String) = (Env.mk (some "s") (some "b")).secret) ∧
    ((Env.mk (some "s") (some "b")).bucket = some "b") ∧
    ("b" : String) ≠ "" ∧ ("hi" : String) ≠ "" ∧ ("txt" : String) ≠ "" ∧
    ((Backend.mk [] none none none).headFault = none) ∧
    ((Backend.mk [] none none none).putFault = none) ∧
    (storeLookup [] "b" (hash_string "hi" ++ "." ++ "txt") = none) ∧
    (post_request (Env.mk (some "s") (some "b")) (Backend.mk [] none none none)
        (some "s") (some ⟨some "hi", some "txt"⟩) =
      ⟨.response 200 (.obj [("status", .str "created"),
                            ("data", .str (hash_string "hi" ++ "." ++ "txt"))]),
       [("b", hash_string "hi" ++ "." ++ "txt", utf8Encode "hi", "text/plain")],
       [.head "b" (hash_string "hi" ++ "." ++ "txt"),
        .put "b" (hash_string "hi" ++ "." ++ "txt") (utf8Encode "hi") "text/plain"]⟩ ∧
     get_request (Env.mk (some "s") (some "b"))
        ⟨[("b", hash_string "hi" ++ "." ++ "txt", utf8Encode "hi", "text/plain")],
         none, none, none⟩ (some "s") (hash_string "hi" ++ "." ++ "txt") =
      ⟨.response 200 (.obj [("content", .str "hi")]),
       [("b", hash_string "hi" ++ "." ++ "txt", utf8Encode "hi", "text/plain")],
       [.head "b" (hash_string "hi" ++ "." ++ "txt"),
        .get "b" (hash_string "hi" ++ "." ++ "txt")]⟩) :=
  ⟨rfl, rfl, by decide, by decide, by decide, rfl, rfl, rfl,
   post_then_get_roundtrip (Env.mk (some "s") (some "b"))
     (Backend.mk [] none none none) (some "s") "hi" "txt" "b"
     rfl rfl (by decide) (by decide) (by decide) rfl rfl rfl⟩

/-- C4: idempotence of the write path.  Starting from a store without the
derived key, the first POST answers created, a second identical POST
against the resulting store answers exists, and afterwards the content
stored under the key is the payload (its UTF-8 bytes, which decode back to
the payload string). -/
theorem post_twice_idempotent (env : Env) (be : Backend) (hdr : Option String)
    (p e b : String)
    (hAuth : hdr = env.secret) (hBucket : env.bucket = some b) (hB : b ≠ "")
    (hp : p ≠ "") (he : e ≠ "")
    (hHF : be.headFault = none) (hPF : be.putFault = none)
    (hsl : storeLookup be.store b (hash_string p ++ "." ++ e) = none) :
    (post_request env be hdr (some ⟨some p, some e⟩)).result =
      .response 200 (.obj [("status", .str "created"),
                           ("data", .str (hash_string p ++ "." ++ e))]) ∧
    (post_request env
        ⟨(post_request env be hdr (some ⟨some p, some e⟩)).store, none, none, none⟩
        hdr (some ⟨some p, some e⟩)).result =
      .response 200 (.obj [("status", .str "exists"),
                           ("data", .str (hash_string p ++ "." ++ e))]) ∧
    storeLookup
        (post_request env
          ⟨(post_request env be hdr (some ⟨some p, some e⟩)).store, none, none, none⟩
          hdr (some ⟨some p, some e⟩)).store
        b (hash_string p ++ "." ++ e) = some (utf8Encode p, "text/plain") ∧
    utf8Decode (utf8Encode p) = some p := by
  have h1 := post_request_created env be hdr p e b hAuth hBucket hB hp he hHF hPF hsl
  have h2 := post_request_already_exists env
    ⟨(b, hash_string p ++ "." ++ e, utf8Encode p, "text/plain") :: be.store,
     none, none, none⟩ hdr p e b (utf8Encode p, "text/plain")
    hAuth hBucket hB hp he rfl
    (storeLookup_cons_self b (hash_string p ++ "." ++ e) (utf8Encode p) "text/plain" be.store)
  rw [h1]
  refine ⟨rfl, ?_, ?_, utf8_roundtrip p⟩
  · rw [h2]
  · rw [h2]
    exact storeLookup_cons_self b (hash_string p ++ "." ++ e) (utf8Encode p) "text/plain" be.store

/-- Witness for C4 at a concrete configuration, payload and extension. -/
theorem post_twice_idempotent_witness :
    ((some "s" : Option String) = (Env.mk (some "s") (some "b")).secret) ∧
    ((Env.mk (some "s") (some "b")).bucket = some "b") ∧
    ("b" : String) ≠ "" ∧ ("hi" : String) ≠ "" ∧ ("txt" : String) ≠ "" ∧
    ((Backend.mk [] none none none).headFault = none) ∧
    ((Backend.mk [] none none none).putFault = none) ∧
    (storeLookup [] "b" (hash_string "hi" ++ "." ++ "txt") = none) ∧
    ((post_request (Env.mk (some "s") (some "b")) (Backend.mk [] none none none)
        (some "s") (some ⟨some "hi", some "txt"⟩)).result =
      .response 200 (.obj [("status", .str "created"),
                           ("data", .str (hash_string "hi" ++ "." ++ "txt"))]) ∧
     (post_request (Env.mk (some "s") (some "b"))
        ⟨(post_request (Env.mk (some "s") (some "b")) (Backend.mk [] none none none)
            (some "s") (some ⟨some "hi", some "txt"⟩)).store, none, none, none⟩
        (some "s") (some ⟨some "hi", some "txt"⟩)).result =
      .response 200 (.obj [("status", .str "exists"),
                           ("data", .str (hash_string "hi" ++ "." ++ "txt"))]) ∧
     storeLookup
        (post_request (Env.mk (some "s") (some "b"))
          ⟨(post_request (Env.mk (some "s") (some "b")) (Backend.mk [] none none none)
              (some "s") (some ⟨some "hi", some "txt"⟩)).store, none, none, none⟩
          (some "s") (some ⟨some "hi", some "txt"⟩)).store
        "b" (hash_string "hi" ++ "." ++ "txt") = some (utf8Encode "hi", "text/plain") ∧
     utf8Decode (utf8Encode "hi") = some "hi") :=
  ⟨rfl, rfl, by decide, by decide, by decide, rfl, rfl, rfl,
   post_twice_idempotent (Env.mk (some "s") (some "b"))
     (Backend.mk [] none none none) (some "s") "hi" "txt" "b"
     rfl rfl (by decide) (by decide) (by decide) rfl rfl rfl⟩

/-- C5: a GET for a key never written is answered by the 404 abort after
the metadata-only existence probe; the call trace contains only the head
probe, no full object retrieval. -/
theorem get_never_written_not_found (env : Env) (be : Backend) (hdr : Option String)
    (fid b : String)
    (hAuth : hdr = env.secret) (hBucket : env.bucket = some b) (hB : b ≠ "")
    (hfid : fid ≠ "") (hHF : be.headFault = none)
    (hsl : storeLookup be.store b fid = none) :
    get_request env be hdr fid =
      ⟨.httpAbort 404 "Объект не найден.", be.store, [.head b fid]⟩ := by
  exact get_request_absent env be hdr fid b hAuth hBucket hB hfid hHF hsl

/-- Witness for C5 at a concrete configuration and key. -/
theorem get_never_written_not_found_witness :
    ((some "s" : Option String) = (Env.mk (some "s") (some "b")).secret) ∧
    ((Env.mk (some "s") (some "b")).bucket = some "b") ∧
    ("b" : String) ≠ "" ∧ ("doesnotexist.txt" : String) ≠ "" ∧
    ((Backend.mk [] none none none).headFault = none) ∧
    (storeLookup [] "b" "doesnotexist.txt" = none) ∧
    get_request (Env.mk (some "s") (some "b")) (Backend.mk [] none none none)
        (some "s") "doesnotexist.txt" =
      ⟨.httpAbort 404 "Объект не найден.", [], [.head "b" "doesnotexist.txt"]⟩ :=
  ⟨rfl, rfl, by decide, by decide, rfl, rfl,
   get_never_written_not_found (Env.mk (some "s") (some "b"))
     (Backend.mk [] none none none) (some "s") "doesnotexist.txt" "b"
     rfl rfl (by decide) (by decide) rfl rfl⟩

/-- C6: any request to a protected route whose key header does not equal
the configured secret, including an absent header, is answered by the
generic 403 body, whatever the request payload; and all rejected header
values receive the identical response. -/
theorem wrong_secret_rejected (env : Env) (be : Backend) (hdr : Option String)
    (fid : String) (reqJson : Option PostBody)
    (h : hdr ≠ env.secret) :
    get_request env be hdr fid = ⟨.response 403 authFailureBody, be.store, []⟩ ∧
    post_request env be hdr reqJson = ⟨.response 403 authFailureBody, be.store, []⟩ ∧
    (∀ hdr', hdr' ≠ env.secret →
      get_request env be hdr' fid = get_request env be hdr fid ∧
      post_request env be hdr' reqJson = post_request env be hdr reqJson) := by
  refine ⟨by simp [get_request, requires_secret_key, h],
          by simp [post_request, requires_secret_key, h], ?_⟩
  intro hdr' h'
  constructor <;> simp [get_request, post_request, requires_secret_key, h, h']

/-- Witness for C6: an absent header against a configured secret. -/
theorem wrong_secret_rejected_witness :
    (none : Option String) ≠ (Env.mk (some "s") (some "b")).secret ∧
    (get_request (Env.mk (some "s") (some "b")) (Backend.mk [] none none none)
        none "k" = ⟨.response 403 authFailureBody, [], []⟩ ∧
     post_request (Env.mk (some "s") (some "b")) (Backend.mk [] none none none)
        none (some ⟨some "p", some "t"⟩) = ⟨.response 403 authFailureBody, [], []⟩ ∧
     (∀ hdr', hdr' ≠ (Env.mk (some "s") (some "b")).secret →
       get_request (Env.mk (some "s") (some "b")) (Backend.mk [] none none none)
           hdr' "k" =
         get_request (Env.mk (some "s") (some "b")) (Backend.mk [] none none none)
           none "k" ∧
       post_request (Env.mk (some "s") (some "b")) (Backend.mk [] none none none)
           hdr' (some ⟨some "p", some "t"⟩) =
         post_request (Env.mk (some "s") (some "b")) (Backend.mk [] none none none)
           none (some ⟨some "p", some "t"⟩))) :=
  ⟨by decide,
   wrong_secret_rejected (Env.mk (some "s") (some "b")) (Backend.mk [] none none none)
     none "k" (some ⟨some "p", some "t"⟩) (by decide)⟩

/-- C7 counterexample: the claim says both handlers convert backend errors
into the 500 JSON body, but the GET handler has no try/except — a non-404
fault on the existence probe escapes it uncaught instead of becoming the
JSON error response. -/
theorem get_backend_error_uncaught_counterexample :
    (get_request (Env.mk (some "s") (some "b"))
        (Backend.mk [] (some ⟨some "500", "boom"⟩) none none) (some "s") "k").result =
      .uncaught (.clientError (some "500") "boom") ∧
    (get_request (Env.mk (some "s") (some "b"))
        (Backend.mk [] (some ⟨some "500", "boom"⟩) none none) (some "s") "k").result ≠
      .response 500 (.obj [("error", .str "boom")]) := by
  constructor
  · rfl
  · intro h
    have h' : HResult.uncaught (.clientError (some "500") "boom") =
        HResult.response 500 (.obj [("error", .str "boom")]) := h
    exact HResult.noConfusion h'

/-- C7 amended: only the POST handler catches backend errors, converting
any non-404 probe fault or any write fault into the 500 JSON error body;
the GET handler lets non-404 probe and read faults propagate uncaught.
In every case the failing operation appears exactly once in the trace —
nothing is retried. -/
theorem backend_error_conversion (env : Env) (be : Backend) (hdr : Option String)
    (p e fid b : String)
    (hAuth : hdr = env.secret) (hBucket : env.bucket = some b) (hB : b ≠ "")
    (hp : p ≠ "") (he : e ≠ "") (hfid : fid ≠ "") :
    (∀ err : S3Error, err.code ≠ some "404" → be.headFault = some err →
      post_request env be hdr (some ⟨some p, some e⟩) =
        ⟨.response 500 (.obj [("error", .str err.msg)]), be.store,
         [.head b (hash_string p ++ "." ++ e)]⟩ ∧
      get_request env be hdr fid =
        ⟨.uncaught (.clientError err.code err.msg), be.store, [.head b fid]⟩) ∧
    (∀ err : S3Error, be.headFault = none → be.putFault = some err →
      storeLookup be.store b (hash_string p ++ "." ++ e) = none →
      post_request env be hdr (some ⟨some p, some e⟩) =
        ⟨.response 500 (.obj [("error", .str err.msg)]), be.store,
         [.head b (hash_string p ++ "." ++ e),
          .put b (hash_string p ++ "." ++ e) (utf8Encode p) "text/plain"]⟩) ∧
    (∀ err : S3Error, err.code ≠ some "404" → be.headFault = none →
      be.getFault = some err → (∀ v, storeLookup be.store b fid = some v →
      get_request env be hdr fid =
        ⟨.uncaught (.clientError err.code err.msg), be.store,
         [.head b fid, .get b fid]⟩)) := by
  refine ⟨?_, ?_, ?_⟩
  · intro err hc hh
    constructor
    · simp [post_request, requires_secret_key, hAuth, post_request_body, falsy,
            hp, he, hB, hBucket, object_exists, s3_head_object, hh, hc, PyErr.message]
    · simp [get_request, requires_secret_key, hAuth, get_request_body, falsy,
            hB, hBucket, hfid, object_exists, s3_head_object, hh, hc]
  · intro err hh hpf hsl
    simp [post_request, requires_secret_key, hAuth, post_request_body, falsy,
          hp, he, hB, hBucket, object_exists, s3_head_object, s3_put_object,
          hh, hpf, hsl]
  · intro err hc hh hg v hsl
    simp [get_request, requires_secret_key, hAuth, get_request_body, falsy,
          hB, hBucket, hfid, object_exists, s3_head_object, get_object_content,
          s3_get_object, hh, hg, hc, hsl]

/-- Witness for the amended C7 at a concrete faulty backend. -/
theorem backend_error_conversion_witness :
    ((some "s" : Option String) = (Env.mk (some "s") (some "b")).secret) ∧
    ((Env.mk (some "s") (some "b")).bucket = some "b") ∧
    ("b" : String) ≠ "" ∧ ("p" : String) ≠ "" ∧ ("t" : String) ≠ "" ∧
    ("k" : String) ≠ "" ∧
    ((∀ err : S3Error, err.code ≠ some "404" →
       (Backend.mk [] (some ⟨some "500", "boom"⟩) none none).headFault = some err →
       post_request (Env.mk (some "s") (some "b"))
           (Backend.mk [] (some ⟨some "500", "boom"⟩) none none)
           (some "s") (some ⟨some "p", some "t"⟩) =
         ⟨.response 500 (.obj [("error", .str err.msg)]), [],
          [.head "b" (hash_string "p" ++ "." ++ "t")]⟩ ∧
       get_request (Env.mk (some "s") (some "b"))
           (Backend.mk [] (some ⟨some "500", "boom"⟩) none none) (some "s") "k" =
         ⟨.uncaught (.clientError err.code err.msg), [], [.head "b" "k"]⟩) ∧
     (∀ err : S3Error,
       (Backend.mk [] (some ⟨some "500", "boom"⟩) none none).headFault = none →
       (Backend.mk [] (some ⟨some "500", "boom"⟩) none none).putFault = some err →
       storeLookup [] "b" (hash_string "p" ++ "." ++ "t") = none →
       post_request (Env.mk (some "s") (some "b"))
           (Backend.mk [] (some ⟨some "500", "boom"⟩) none none)
           (some "s") (some ⟨some "p", some "t"⟩) =
         ⟨.response 500 (.obj [("error", .str err.msg)]), [],
          [.head "b" (hash_string "p" ++ "." ++ "t"),
           .put "b" (hash_string "p" ++ "." ++ "t") (utf8Encode "p") "text/plain"]⟩) ∧
     (∀ err : S3Error, err.code ≠ some "404" →
       (Backend.mk [] (some ⟨some "500", "boom"⟩) none none).headFault = none →
       (Backend.mk [] (some ⟨some "500", "boom"⟩) none none).getFault = some err →
       (∀ v, storeLookup [] "b" "k" = some v →
        get_request (Env.mk (some "s") (some "b"))
            (Backend.mk [] (some ⟨some "500", "boom"⟩) none none) (some "s") "k" =
          ⟨.uncaught (.clientError err.code err.msg), [], [.head "b" "k", .get "b" "k"]⟩))) :=
  ⟨rfl, rfl, by decide, by decide, by decide, by decide,
   backend_error_conversion (Env.mk (some "s") (some "b"))
     (Backend.mk [] (some ⟨some "500", "boom"⟩) none none) (some "s") "p" "t" "k" "b"
     rfl rfl (by decide) (by decide) (by decide) (by decide)⟩

/-- C8 counterexample: module initialisation validates nothing — on an
environment without BUCKET_NAME it still yields a configuration, and the
missing bucket surfaces only inside request handling: the POST handler
answers 500 with the RuntimeError text (its try/except catches the raise),
the GET handler raises at request time.  Nothing is raised at startup. -/
theorem bucket_missing_startup_counterexample :
    loadConfig (fun _ => none) = ⟨none, none⟩ ∧
    post_request (loadConfig (fun _ => none)) (Backend.mk [] none none none)
        none (some ⟨some "p", some "t"⟩) =
      ⟨.response 500 (.obj [("error", .str "BUCKET_NAME is not set")]), [], []⟩ ∧
    get_request (loadConfig (fun _ => none)) (Backend.mk [] none none none) none "k" =
      ⟨.uncaught (.runtimeError "BUCKET_NAME is not set"), [], []⟩ :=
  ⟨rfl, rfl, rfl⟩

/-- C8 amended: a missing bucket-name configuration is not detected at
startup; configuration loading always succeeds, and each handler checks
the value during request handling — the POST handler converts the
resulting RuntimeError into a 500 JSON body, the GET handler raises it. -/
theorem bucket_missing_deferred (g : String → Option String) (be : Backend)
    (hdr : Option String) (p e fid : String)
    (hg : g "BUCKET_NAME" = none)
    (hAuth : hdr = g "SECRET_KEY") (hp : p ≠ "") (he : e ≠ "") (hfid : fid ≠ "") :
    loadConfig g = ⟨g "SECRET_KEY", none⟩ ∧
    post_request (loadConfig g) be hdr (some ⟨some p, some e⟩) =
      ⟨.response 500 (.obj [("error", .str "BUCKET_NAME is not set")]), be.store, []⟩ ∧
    get_request (loadConfig g) be hdr fid =
      ⟨.uncaught (.runtimeError "BUCKET_NAME is not set"), be.store, []⟩ := by
  refine ⟨by simp [loadConfig, hg], ?_, ?_⟩
  · simp [post_request, requires_secret_key, loadConfig, hAuth, post_request_body,
          falsy, hg, hp, he]
  · simp [get_request, requires_secret_key, loadConfig, hAuth, get_request_body,
          falsy, hg, hfid]

/-- Witness for the amended C8 on an empty environment. -/
theorem bucket_missing_deferred_witness :
    ((fun _ => none : String → Option String) "BUCKET_NAME" = none) ∧
    ((none : Option String) = (fun _ => none : String → Option String) "SECRET_KEY") ∧
    ("p" : String) ≠ "" ∧ ("t" : String) ≠ "" ∧ ("k" : String) ≠ "" ∧
    (loadConfig (fun _ => none) = ⟨(fun _ => none : String → Option String) "SECRET_KEY", none⟩ ∧
     post_request (loadConfig (fun _ => none)) (Backend.mk [] none none none)
         none (some ⟨some "p", some "t"⟩) =
       ⟨.response 500 (.obj [("error", .str "BUCKET_NAME is not set")]), [], []⟩ ∧
     get_request (loadConfig (fun _ => none)) (Backend.mk [] none none none) none "k" =
       ⟨.uncaught (.runtimeError "BUCKET_NAME is not set"), [], []⟩) :=
  ⟨rfl, rfl, by decide, by decide, by decide,
   bucket_missing_deferred (fun _ => none) (Backend.mk [] none none none)
     none "p" "t" "k" rfl rfl (by decide) (by decide) (by decide)⟩

/-- C9: with the correct secret header, the GET route answers 400 on an
empty file_id, 404 when the object is absent, and the JSON content object
on success. -/
theorem get_status_code_contract (env : Env) (be : Backend) (hdr : Option String)
    (b : String)
    (hAuth : hdr = env.secret) (hBucket : env.bucket = some b) (hB : b ≠ "")
    (hHF : be.headFault = none) (hGF : be.getFault = none) :
    (get_request env be hdr "" =
      ⟨.httpAbort 400 "Параметр file_id обязателен.", be.store, []⟩) ∧
    (∀ fid, fid ≠ "" → storeLookup be.store b fid = none →
      get_request env be hdr fid =
        ⟨.httpAbort 404 "Объект не найден.", be.store, [.head b fid]⟩) ∧
    (∀ fid bytes ct s, fid ≠ "" → storeLookup be.store b fid = some (bytes, ct) →
      utf8Decode bytes = some s →
      get_request env be hdr fid =
        ⟨.response 200 (.obj [("content", .str s)]), be.store,
         [.head b fid, .get b fid]⟩) := by
  refine ⟨?_, ?_, ?_⟩
  · simp [get_request, requires_secret_key, hAuth, get_request_body]
  · intro fid hfid hsl
    exact get_request_absent env be hdr fid b hAuth hBucket hB hfid hHF hsl
  · intro fid bytes ct s hfid hsl hdec
    exact get_request_found env be hdr fid b s bytes ct hAuth hBucket hB hfid hHF hGF hsl hdec

/-- Witness for C9 on a store holding one decodable object. -/
theorem get_status_code_contract_witness :
    ((some "s" : Option String) = (Env.mk (some "s") (some "b")).secret) ∧
    ((Env.mk (some "s") (some "b")).bucket = some "b") ∧
    ("b" : String) ≠ "" ∧
    ((Backend.mk [("b", "k.txt", utf8Encode "hi", "text/plain")] none none none).headFault = none) ∧
    ((Backend.mk [("b", "k.txt", utf8Encode "hi", "text/plain")] none none none).getFault = none) ∧
    ((get_request (Env.mk (some "s") (some "b"))
        (Backend.mk [("b", "k.txt", utf8Encode "hi", "text/plain")] none none none) (some "s") "" =
      ⟨.httpAbort 400 "Параметр file_id обязателен.",
       [("b", "k.txt", utf8Encode "hi", "text/plain")], []⟩) ∧
     (∀ fid, fid ≠ "" →
       storeLookup [("b", "k.txt", utf8Encode "hi", "text/plain")] "b" fid = none →
       get_request (Env.mk (some "s") (some "b"))
           (Backend.mk [("b", "k.txt", utf8Encode "hi", "text/plain")] none none none)
           (some "s") fid =
         ⟨.httpAbort 404 "Объект не найден.",
          [("b", "k.txt", utf8Encode "hi", "text/plain")], [.head "b" fid]⟩) ∧
     (∀ fid bytes ct s, fid ≠ "" →
       storeLookup [("b", "k.txt", utf8Encode "hi", "text/plain")] "b" fid = some (bytes, ct) →
       utf8Decode bytes = some s →
       get_request (Env.mk (some "s") (some "b"))
           (Backend.mk [("b", "k.txt", utf8Encode "hi", "text/plain")] none none none)
           (some "s") fid =
         ⟨.response 200 (.obj [("content", .str s)]),
          [("b", "k.txt", utf8Encode "hi", "text/plain")], [.head "b" fid, .get "b" fid]⟩)) :=
  ⟨rfl, rfl, by decide, rfl, rfl,
   get_status_code_contract (Env.mk (some "s") (some "b"))
     (Backend.mk [("b", "k.txt", utf8Encode "hi", "text/plain")] none none none)
     (some "s") "b" rfl rfl (by decide) rfl rfl⟩

/-- C10: the access gate passes exactly when the key header value, None
when absent, equals the configured secret; in particular with SECRET_KEY
unset a request without the header is authorized, both sides being None. -/
theorem access_gate_condition (secret hdr : Option String) (st : Store)
    (f : Unit → Outcome) :
    (hdr = secret → requires_secret_key secret hdr st f = f ()) ∧
    (hdr ≠ secret →
      requires_secret_key secret hdr st f = ⟨.response 403 authFailureBody, st, []⟩) ∧
    (∀ g : String → Option String, g "SECRET_KEY" = none →
      requires_secret_key (loadConfig g).secret none st f = f ()) := by
  refine ⟨fun h => by simp [requires_secret_key, h],
          fun h => by simp [requires_secret_key, h],
          fun g hg => by simp [requires_secret_key, loadConfig, hg]⟩

/-- Witness for C10: the unset-secret, absent-header case passes the gate. -/
theorem access_gate_condition_witness :
    requires_secret_key (loadConfig (fun _ => none)).secret none []
        (fun _ => ⟨.response 200 .null, [], []⟩) =
      (fun _ => (⟨.response 200 .null, [], []⟩ : Outcome)) () :=
  (access_gate_condition (loadConfig (fun _ => none)).secret none []
    (fun _ => ⟨.response 200 .null, [], []⟩)).2.2 (fun _ => none) rfl

end S3Provider
